import Mathlib

/-!
Shallow embedding of the winctx event-loop core: the async event loop facade
(`src/event_loop.rs`), the window loop (`src/window_loop/window_loop.rs`), the
clipboard manager (`src/window/clipboard_manager.rs`), the popup menu handle
(`src/window_loop/popup_menu_handle.rs`), the sender (`src/sender.rs`) and the
error taxonomy (`src/error.rs`).  Pure functions are translated directly;
stateful Rust code becomes explicit state passing; calls into the Win32 API are
modelled by executable functions that follow the documented platform contract
(each such model carries a comment saying which contract it encodes).
-/

namespace Winctx

/-! ## Identifier types (`area_id.rs`, `notification_id.rs`, `item_id.rs`, `icon/mod.rs`) -/

/-- The identifier for a notification area (`AreaId(u32)`). -/
structure AreaId where
  id : Nat
  deriving DecidableEq, Repr

/-- An identifier for a notification (`NotificationId(u32)`). -/
structure NotificationId where
  id : Nat
  deriving DecidableEq, Repr

/-- An identifier for a menu item (`ItemId { area_id: u32, id: u32 }`). -/
structure ItemId where
  areaId : Nat
  id : Nat
  deriving DecidableEq, Repr

/-- A handle into the flat icon table (`IconId(u32)`); `as_usize` is `.id`. -/
structure IconId where
  id : Nat
  deriving DecidableEq, Repr

/-! ## Errors (`error.rs`) -/

/-- Model of `std::io::Error`: the underlying OS error code. -/
structure IoError where
  code : Nat
  deriving DecidableEq, Repr

/-- Model of `std::char::DecodeUtf16Error`: the unpaired surrogate. -/
structure DecodeUtf16Error where
  unpairedSurrogate : Nat
  deriving DecidableEq, Repr

/-- `WindowError` from `error.rs` (lines 80-90). -/
inductive WindowError where
  | init (error : IoError)
  | addClipboardFormatListener (error : IoError)
  | openClipboard (error : IoError)
  | getClipboardData (error : IoError)
  | lockClipboardData (error : IoError)
  | classNameTooLong (len : Nat)
  | threadPanicked
  | threadExited
  deriving DecidableEq, Repr

/-- `SetupIconsError` from `error.rs`. -/
inductive SetupIconsError where
  | buildIcon (error : IoError)
  deriving DecidableEq, Repr

/-- `SetupMenuError` from `error.rs`. -/
inductive SetupMenuError where
  | addMenuEntry (index : Nat) (error : IoError)
  | addMenuSeparator (index : Nat) (error : IoError)
  deriving DecidableEq, Repr

/-- `ErrorKind` from `error.rs`, plus the `ModifyMenuItem` variant that
`event_loop.rs` constructs with `.map_err(ModifyMenuItem)` (the revision of
`error.rs` declaring it is not in the tree, but its use in `event_loop.rs`
line 75 fixes its shape: it carries the underlying `io::Error`). -/
inductive ErrorKind where
  | windowSetup (error : WindowError)
  | threadError (error : WindowError)
  | clipboardPoll (error : WindowError)
  | deleteRegistryKey (error : IoError)
  | getRegistryValue (error : IoError)
  | setRegistryKey (error : IoError)
  | currentExecutable (error : IoError)
  | buildPopupMenu (error : IoError)
  | setupIcons (error : SetupIconsError)
  | setupMenu (error : SetupMenuError)
  | addNotification (error : IoError)
  | modifyNotification (error : IoError)
  | modifyMenuItem (error : IoError)
  | sendNotification (error : IoError)
  | createMutex (error : IoError)
  | openRegistryKey (error : IoError)
  | missingNotification
  | badAutoStartExecutable (error : DecodeUtf16Error)
  | badAutoStartArgument (error : DecodeUtf16Error)
  | windowClosed
  | postMessageDestroy
  deriving DecidableEq, Repr

/-- `Error { kind: ErrorKind }` from `error.rs`. -/
structure Error where
  kind : ErrorKind
  deriving DecidableEq, Repr

/-! ## Notifications and modification payloads
(`notification.rs`, `modify_area.rs`, `modify_menu_item.rs`) -/

/-- `NotificationIcon` from `notification.rs`. -/
inductive NotificationIcon where
  | info
  | warning
  | error
  deriving DecidableEq, Repr

/-- `Notification` from `notification.rs`; `timeout` is in milliseconds,
`options` is the `NIIF_*` flag word. -/
structure Notification where
  title : Option String
  message : Option String
  icon : NotificationIcon
  timeout : Option Nat
  options : Nat
  deriving DecidableEq, Repr

/-- `Notification::default()` / `Notification::new()`: one second timeout. -/
def Notification.new : Notification :=
  { title := none, message := none, icon := .info, timeout := some 1000, options := 0 }

/-- `ModifyArea` (`modify_area.rs`): optional icon-table index and tooltip. -/
structure ModifyArea where
  icon : Option IconId
  tooltip : Option String
  deriving DecidableEq, Repr

/-- `ModifyMenuItem` (`modify_menu_item.rs`). -/
structure ModifyMenuItem where
  checked : Option Bool
  highlight : Option Bool
  deriving DecidableEq, Repr

/-! ## Event types (`window_loop/window_loop.rs`, `event_loop.rs`) -/

/-- Mouse/click payload forwarded verbatim by the facade; its internal shape is
irrelevant to every claim, so it is carried as an opaque word. -/
structure MouseEvent where
  raw : Nat
  deriving DecidableEq, Repr

/-- `ClipboardEvent`: `BitMap` carries the raw bytes, `Text` carries the decoded
string as its sequence of Unicode scalar values. -/
inductive ClipboardEvent where
  | bitMap (bytes : List Nat)
  | text (content : List Nat)
  deriving DecidableEq, Repr

/-- `WindowEvent`: the raw events the window thread posts to the facade, in the
shape consumed by `event_loop.rs` (lines 91-129). -/
inductive WindowEvent where
  | menuItemClicked (areaId : AreaId) (idx : Nat) (event : MouseEvent)
  | shutdown
  | clipboard (event : ClipboardEvent)
  | iconClicked (areaId : AreaId) (event : MouseEvent)
  | notificationClicked (areaId : AreaId) (event : MouseEvent)
  | notificationDismissed (areaId : AreaId)
  | copyData (ty : Nat) (data : List Nat)
  | error (error : Error)
  deriving DecidableEq, Repr

/-- `Event`: the typed events returned to the application by `EventLoop::tick`. -/
inductive Event where
  | menuItemClicked (itemId : ItemId) (event : MouseEvent)
  | clipboard (event : ClipboardEvent)
  | iconClicked (areaId : AreaId) (event : MouseEvent)
  | notificationClicked (areaId : AreaId) (id : NotificationId) (event : MouseEvent)
  | notificationDismissed (areaId : AreaId) (id : NotificationId)
  | copyData (ty : Nat) (data : List Nat)
  | error (error : Error)
  | shutdown
  deriving DecidableEq, Repr

/-- `InputEvent` from `sender.rs` (lines 13-29): the command channel messages. -/
inductive InputEvent where
  | shutdown
  | modifyArea (areaId : AreaId) (modify : ModifyArea)
  | modifyMenuItem (itemId : ItemId) (modify : ModifyMenuItem)
  | notification (areaId : AreaId) (notificationId : NotificationId)
      (notification : Notification)
  deriving DecidableEq, Repr

/-! ## Remote byte-copy channel (`window_loop/window_loop.rs` lines 134-145
and 280-297) -/

/-- `usize::to_ne_bytes` on x86-64: `k` little-endian base-256 digits of `n`. -/
def toNeBytes : Nat → Nat → List Nat
  | 0, _ => []
  | k + 1, n => n % 256 :: toNeBytes k (n / 256)

/-- The unaligned `usize` read at the tag offset: little-endian recomposition
of the byte list. -/
def fromNeBytes : List Nat → Nat
  | [] => 0
  | b :: rest => b + 256 * fromNeBytes rest

/-- `window_proc` handling of `WM_COPYDATA` (lines 134-145): one allocation of
`cbData + size_of::<usize>()` bytes holding the payload followed by the
native-endian bytes of `dwData`; the posted message carries the payload length
in `wParam` and the buffer pointer in `lParam`.  Result: `(wParam, buffer)`. -/
def copyDataEncode (dwData : Nat) (payload : List Nat) : Nat × List Nat :=
  (payload.length, payload ++ toNeBytes 8 dwData)

/-- The `BYTES_ID` arm of the message pump (lines 280-297): the delivered byte
vector is the first `wParam` bytes of the buffer, and the type tag is the
`usize` read unaligned from the bytes that follow them.  Result: `(ty, bytes)`. -/
def copyDataDecode (wParam : Nat) (buf : List Nat) : Nat × List Nat :=
  (fromNeBytes (buf.drop wParam), buf.take wParam)

/-- The event the pump sends for a reassembled byte-copy message:
`WindowEvent::CopyData(ty, bytes)` (line 295). -/
def copyDataEvent (wParam : Nat) (buf : List Nat) : WindowEvent :=
  WindowEvent.copyData (copyDataDecode wParam buf).1 (copyDataDecode wParam buf).2

/-! ## Clipboard polling (`window/clipboard_manager.rs`, `clipboard/mod.rs`) -/

/-- `ClipboardFormat` (`clipboard/clipboard_format.rs`): the three formats the
manager selects, every other format value collapsed into `other`. -/
inductive ClipboardFormat where
  | dibv5
  | text
  | unicodetext
  | other (value : Nat)
  deriving DecidableEq, Repr

/-- Whether a byte is a UTF-8 continuation byte (`0x80..=0xBF`). -/
def utf8Cont (b : Nat) : Bool := 0x80 ≤ b && b ≤ 0xBF

/-- Model of `str::from_utf8` (RFC 3629): decodes a byte list to its Unicode
scalar values, rejecting overlong forms, surrogates and values above
`0x10FFFF`; `none` models `Err(Utf8Error)`. -/
def utf8Decode : List Nat → Option (List Nat)
  | [] => some []
  | b1 :: rest =>
    if b1 ≤ 0x7F then
      (utf8Decode rest).map (b1 :: ·)
    else if 0xC2 ≤ b1 ∧ b1 ≤ 0xDF then
      match rest with
      | b2 :: rest2 =>
        if utf8Cont b2 then
          (utf8Decode rest2).map (((b1 - 0xC0) * 0x40 + (b2 - 0x80)) :: ·)
        else none
      | [] => none
    else if 0xE0 ≤ b1 ∧ b1 ≤ 0xEF then
      match rest with
      | b2 :: b3 :: rest3 =>
        let b2ok :=
          if b1 = 0xE0 then 0xA0 ≤ b2 && b2 ≤ 0xBF
          else if b1 = 0xED then 0x80 ≤ b2 && b2 ≤ 0x9F
          else utf8Cont b2
        if b2ok && utf8Cont b3 then
          (utf8Decode rest3).map
            (((b1 - 0xE0) * 0x1000 + (b2 - 0x80) * 0x40 + (b3 - 0x80)) :: ·)
        else none
      | _ => none
    else if 0xF0 ≤ b1 ∧ b1 ≤ 0xF4 then
      match rest with
      | b2 :: b3 :: b4 :: rest4 =>
        let b2ok :=
          if b1 = 0xF0 then 0x90 ≤ b2 && b2 ≤ 0xBF
          else if b1 = 0xF4 then 0x80 ≤ b2 && b2 ≤ 0x8F
          else utf8Cont b2
        if b2ok && utf8Cont b3 && utf8Cont b4 then
          (utf8Decode rest4).map
            (((b1 - 0xF0) * 0x40000 + (b2 - 0x80) * 0x1000 + (b3 - 0x80) * 0x40
                + (b4 - 0x80)) :: ·)
        else none
      | _ => none
    else none

/-- Model of `String::from_utf16`: decodes a list of 16-bit code units to the
Unicode scalar values, pairing surrogates; `none` models `Err` on an unpaired
surrogate. -/
def utf16Decode : List Nat → Option (List Nat)
  | [] => some []
  | u :: rest =>
    if u < 0xD800 ∨ 0xE000 ≤ u then
      (utf16Decode rest).map (u :: ·)
    else if u ≤ 0xDBFF then
      match rest with
      | u2 :: rest2 =>
        if 0xDC00 ≤ u2 ∧ u2 ≤ 0xDFFF then
          (utf16Decode rest2).map
            ((0x10000 + (u - 0xD800) * 0x400 + (u2 - 0xDC00)) :: ·)
        else none
      | [] => none
    else none

/-- The slice pattern `[head @ .., 0] => head, rest => rest` used in
`poll_clipboard` (lines 158-161 and 172-175): a payload whose final code unit
is `0` has exactly that one unit removed; anything else is left whole. -/
def stripTrailingNull (data : List Nat) : List Nat :=
  if data.getLast? = some 0 then data.dropLast else data

/-- The environment a single clipboard poll runs against: outcomes of the
`OpenClipboard`, `GetClipboardData` and `GlobalLock` calls, the locked payload
(as a list of code units in the selected format's unit size), the OS error
code reported by a failing call, and the format enumeration returned by
`Clipboard::updated_formats`. -/
structure PollEnv where
  openOk : Bool
  getDataOk : Bool
  lockOk : Bool
  data : List Nat
  errorCode : Nat
  formats : List ClipboardFormat
  deriving DecidableEq, Repr

/-- `ClipboardManager::poll_clipboard` (lines 135-189): opens the clipboard,
reads and locks the remembered format's payload, clears the remembered format
once the data is locked, and decodes.  Returns the new `supported` state and
the `Result<Option<ClipboardEvent>, WindowError>`. -/
def pollClipboard (supported : Option ClipboardFormat) (env : PollEnv) :
    Option ClipboardFormat × Except WindowError (Option ClipboardEvent) :=
  if env.openOk = false then
    (supported, .error (.openClipboard ⟨env.errorCode⟩))
  else
    match supported with
    | none => (none, .ok none)
    | some format =>
      if env.getDataOk = false then
        (some format, .error (.getClipboardData ⟨env.errorCode⟩))
      else if env.lockOk = false then
        (some format, .error (.lockClipboardData ⟨env.errorCode⟩))
      else
        -- data successfully locked: `self.supported = None` (line 151)
        match format with
        | .dibv5 => (none, .ok (some (.bitMap env.data)))
        | .text =>
          match utf8Decode (stripTrailingNull env.data) with
          | none => (none, .ok none)
          | some s => (none, .ok (some (.text s)))
        | .unicodetext =>
          match utf16Decode (stripTrailingNull env.data) with
          | none => (none, .ok none)
          | some s => (none, .ok (some (.text s)))
        | .other _ => (none, .ok none)

/-- `RETRY_MAX_ATTEMPTS` (line 16). -/
def RETRY_MAX_ATTEMPTS : Nat := 10

/-- Timer id `CLIPBOARD_RETRY_TIMER` (line 14). -/
def CLIPBOARD_RETRY_TIMER : Nat := 1000

/-- Timer id `CLIPBOARD_DEBOUNCE_TIMER` (line 21). -/
def CLIPBOARD_DEBOUNCE_TIMER : Nat := 1001

/-- The mutable state of `ClipboardManager` (`attempts`, `supported`) together
with which of its two window timers are armed (`SetTimer`/`KillTimer` on the
owning window are modelled by these two flags). -/
structure ClipState where
  attempts : Nat
  supported : Option ClipboardFormat
  retryArmed : Bool
  debounceArmed : Bool
  deriving DecidableEq, Repr

/-- `ClipboardManager::populate_formats` (lines 90-103): the first enumerated
format among `DIBV5`, `TEXT`, `UNICODETEXT`, if any. -/
def populateFormats (formats : List ClipboardFormat) : Option ClipboardFormat :=
  formats.find? fun f =>
    match f with
    | .dibv5 | .text | .unicodetext => true
    | .other _ => false

/-- `ClipboardManager::handle_timer` (lines 105-133): polls once; on failure
either gives up after `RETRY_MAX_ATTEMPTS` (killing the retry timer, resetting
the counter and emitting one non-fatal `Error` event) or bumps the attempt
counter (arming the retry timer if this was attempt zero); on success kills the
retry timer, resets the counter and emits the decoded event if there is one. -/
def ClipState.handleTimer (s : ClipState) (env : PollEnv) :
    ClipState × List WindowEvent :=
  match pollClipboard s.supported env with
  | (sup2, .error e) =>
    if RETRY_MAX_ATTEMPTS ≤ s.attempts then
      ({ s with supported := sup2, retryArmed := false, attempts := 0 },
        [.error ⟨.clipboardPoll e⟩])
    else
      (let retry := if s.attempts = 0 then true else s.retryArmed
       ({ s with supported := sup2, retryArmed := retry, attempts := s.attempts + 1 }, []))
  | (sup2, .ok r) =>
    ({ s with supported := sup2, retryArmed := false, attempts := 0 },
      match r with
      | some ev => [.clipboard ev]
      | none => [])

/-- The window messages `ClipboardManager::dispatch` inspects. -/
inductive ClipMsg where
  | clipboardUpdate
  | timer (wParam : Nat)
  | other (message : Nat)
  deriving DecidableEq, Repr

/-- `ClipboardManager::dispatch` (lines 40-88).  The returned `Bool` is the
dispatch result: `true` means the message was consumed, so the window thread
`continue`s its message loop rather than acting further on the message. -/
def ClipState.dispatch (s : ClipState) (env : PollEnv) :
    ClipMsg → ClipState × List WindowEvent × Bool
  | .clipboardUpdate =>
    -- debounce incoming events: arm the debounce timer
    ({ s with debounceArmed := true }, [], true)
  | .timer w =>
    if w = CLIPBOARD_RETRY_TIMER then
      let (s2, evs) := s.handleTimer env
      (s2, evs, true)
    else if w = CLIPBOARD_DEBOUNCE_TIMER then
      let s1 := { s with debounceArmed := false, supported := populateFormats env.formats }
      match pollClipboard s1.supported env with
      | (sup2, .error _) =>
        -- arm the retry timer, attempts := 1 (lines 72-76)
        ({ s1 with supported := sup2, retryArmed := true, attempts := 1 },
          [], true)
      | (sup2, .ok r) =>
        ({ s1 with supported := sup2 },
          (match r with
            | some ev => [.clipboard ev]
            | none => []), true)
    else (s, [], false)
  | .other _ => (s, [], false)

/-- Iterated firings of the retry timer: each step is one
`WM_TIMER`/`CLIPBOARD_RETRY_TIMER` delivery handled by `handle_timer`,
collecting the emitted window events in order. -/
def runRetryTimers (env : PollEnv) : Nat → ClipState → ClipState × List WindowEvent
  | 0, s => (s, [])
  | k + 1, s =>
    let (s1, evs1) := s.handleTimer env
    let (s2, evs2) := runRetryTimers env k s1
    (s2, evs1 ++ evs2)

/-! ## Window loop thread handle (`window_loop/window_loop.rs` lines 218-350) -/

/-- What joining the window thread's `JoinHandle` observes: a panic, or the
thread's own `Result<(), WindowError>` return value. -/
inductive ThreadOutcome where
  | panicked
  | finished (result : Except WindowError Unit)
  deriving Repr

/-- The `WindowLoop` fields that `join`/`is_closed` consult: the optional
thread handle, plus whether the native window (and hence its message queue)
still exists.  The spec's data-model invariant fixes the Win32 side of this:
the native window handle and its message queue exist only between successful
construction and a completed shutdown join, because the OS destroys a thread's
windows when the thread exits. -/
structure WindowLoopState where
  thread : Option ThreadOutcome
  windowAlive : Bool
  deriving Repr

/-- `WindowLoop::is_closed` (lines 330-332): the thread handle has been taken. -/
def WindowLoopState.isClosed (s : WindowLoopState) : Bool :=
  s.thread.isNone

/-- `WindowLoop::join` (lines 335-350).  It first posts `WM_DESTROY` to the
native window's queue — `PostMessageW` is modelled by the Win32 contract that
posting succeeds exactly while the target window exists — and fails with
`PostMessageDestroy` if the post is rejected.  Only then does it take and join
the thread handle, mapping a panic to `ThreadError(ThreadPanicked)` and a
thread error to `ThreadError`; with the handle already taken nothing is joined.
Joining the thread ends it, so the window dies with it. -/
def WindowLoopState.join (s : WindowLoopState) : WindowLoopState × Except Error Unit :=
  if s.windowAlive = false then
    (s, .error ⟨.postMessageDestroy⟩)
  else
    match s.thread with
    | none => (s, .ok ())
    | some t =>
      let s2 : WindowLoopState := { thread := none, windowAlive := false }
      match t with
      | .panicked => (s2, .error ⟨.threadError .threadPanicked⟩)
      | .finished (.error e) => (s2, .error ⟨.threadError e⟩)
      | .finished (.ok _) => (s2, .ok ())

/-- `WindowLoop::tick` (lines 324-327): await the next event from the internal
channel; `recv` yielding `none` models the channel being closed (the window
thread exited and the queue is drained), in which case `unwrap_or` synthesizes
`WindowEvent::Shutdown`. -/
def windowLoopTick (recv : Option WindowEvent) : WindowEvent :=
  recv.getD WindowEvent.shutdown

/-! ## Facade-side window handles (`window_loop/window_handle.rs`,
`window_loop/area_handle.rs`, `window_loop/popup_menu_handle.rs`) -/

/-- A decoded icon resource handle (`icon_handle.rs`): the raw `HICON`. -/
structure IconHandle where
  hicon : Nat
  deriving DecidableEq, Repr

/-- The checked/highlighted state of one native menu item position. -/
structure MenuItemState where
  checked : Bool
  highlight : Bool
  deriving DecidableEq, Repr

/-- `PopupMenuHandle` (`popup_menu_handle.rs`): the native menu, modelled by
the per-position item state the `InsertMenuItemW` calls created at startup. -/
structure PopupMenuHandle where
  items : List MenuItemState
  deriving DecidableEq, Repr

/-- Win32 `ERROR_MENU_ITEM_NOT_FOUND`, the error a by-position
`SetMenuItemInfoW` on a nonexistent position reports. -/
def errorMenuItemNotFound : Nat := 1456

/-- The state application of `fn apply` (lines 133-136): `MIIM_STATE` with
`MFS_CHECKED`/`MFS_UNCHECKED` and `MFS_HILITE`/`MFS_UNHILITE` as requested. -/
def applyModify (s : MenuItemState) (m : ModifyMenuItem) : MenuItemState :=
  { checked := m.checked.getD s.checked, highlight := m.highlight.getD s.highlight }

/-- `PopupMenuHandle::modify_menu_item` (lines 100-115): a by-position
`SetMenuItemInfoW`.  The Win32 contract: the call updates the item and
succeeds when the position exists, and fails (returning zero, with
`ERROR_MENU_ITEM_NOT_FOUND`) when it does not; the failure is surfaced as the
`io::Error` the function returns. -/
def PopupMenuHandle.modifyMenuItem (menu : PopupMenuHandle) (itemIdx : Nat)
    (modify : ModifyMenuItem) : Except IoError PopupMenuHandle :=
  if h : itemIdx < menu.items.length then
    .ok ⟨menu.items.set itemIdx (applyModify (menu.items.get ⟨itemIdx, h⟩) modify)⟩
  else
    .error ⟨errorMenuItemNotFound⟩

/-- `AreaHandle` (`area_handle.rs`). -/
structure AreaHandle where
  areaId : AreaId
  popupMenu : Option PopupMenuHandle
  deriving DecidableEq, Repr

/-- `WindowHandle` (`window_handle.rs`), reduced to what its notification
methods depend on: setup registered one tray icon per area with `uID` equal to
the area id, ids `0 .. areaCount - 1`. -/
structure WindowHandle where
  areaCount : Nat
  deriving DecidableEq, Repr

/-- `WindowHandle::send_notification` (`window_handle.rs` lines 83-145): a
`Shell_NotifyIconW(NIM_MODIFY)` against the area's `uID`.  Win32 contract: the
modify succeeds exactly when that `(hwnd, uID)` pair was previously added. -/
def WindowHandle.sendNotification (w : WindowHandle) (areaId : AreaId)
    (_n : Notification) : Except IoError Unit :=
  if areaId.id < w.areaCount then .ok () else .error ⟨errorMenuItemNotFound + 0⟩

/-- `WindowHandle::modify_notification` (`window_handle.rs` lines 54-80): a
`Shell_NotifyIconW(NIM_MODIFY)` carrying the optional icon and tooltip; same
Win32 success contract as `sendNotification`. -/
def WindowHandle.modifyNotification (w : WindowHandle) (areaId : AreaId)
    (_icon : Option IconHandle) (_tooltip : Option String) : Except IoError Unit :=
  if areaId.id < w.areaCount then .ok () else .error ⟨errorMenuItemNotFound + 0⟩

/-- The `WindowLoop` fields the facade in `event_loop.rs` dereferences
(`window_loop.window`, `window_loop.areas`, `window_loop.is_closed()`); this
revision of the struct itself is not under `src`, but these three fields are
fixed by their uses in `event_loop.rs` and by `window_handle.rs` and
`area_handle.rs`.  `closed` is the `is_closed` observation (thread handle
taken). -/
structure WindowLoopFacade where
  window : WindowHandle
  areas : List AreaHandle
  closed : Bool
  deriving DecidableEq, Repr

/-- Modelled from the spec: the revision of `WindowLoop::new` used by
`event_loop.rs` is missing from the tree (the `window_loop/window_loop.rs`
present is an older revision whose struct lacks the `window` and `areas`
fields that `event_loop.rs` reads, and nothing under `src` constructs the
declared `WindowError::ClassNameTooLong`).  Following the spec: the class name
length is validated against the platform's fixed maximum of 256 before the
window thread is spawned, so oversized names fail immediately with
`ClassNameTooLong` and no thread is created.  The returned `Bool` records
whether an OS thread was spawned; the success path models a setup that
completed, which no claim depends on. -/
def windowLoopNew (className : List Nat) (areas : List AreaHandle) :
    Bool × Except WindowError WindowLoopFacade :=
  if 256 < className.length then
    (false, .error (.classNameTooLong className.length))
  else
    (true, .ok { window := ⟨areas.length⟩, areas := areas, closed := false })

/-! ## Sender (`sender.rs`) -/

/-- The `AtomicU32` wraps at 2 to the 32nd. -/
def u32Mod : Nat := 2 ^ 32

/-- The shared `Inner` state of a `Sender`: the atomic notification counter.
Clones of a `Sender` hold the same `Arc<Inner>`, so every clone reads and
bumps this one counter; `Sender::new` starts it at zero. -/
structure SenderState where
  notifications : Nat
  deriving DecidableEq, Repr

/-- `Sender::new` (lines 43-50): counter starts at `AtomicU32::new(0)`. -/
def SenderState.new : SenderState := ⟨0⟩

/-- A `NotificationBuilder` (lines 157-164): area, the id already drawn from
the counter, and the notification being assembled. -/
structure NotificationBuilder where
  areaId : AreaId
  id : NotificationId
  notification : Notification
  deriving DecidableEq, Repr

/-- `Sender::notification` (lines 74-86): `fetch_add(1, SeqCst)` on the shared
counter — returning the previous value and storing its wrapping successor —
and the returned builder already carries `NotificationId::new(id)`; the id is
assigned here, at request time, before anything is sent or shown. -/
def SenderState.notification (s : SenderState) (areaId : AreaId) :
    SenderState × NotificationBuilder :=
  let id := s.notifications
  (⟨(id + 1) % u32Mod⟩, ⟨areaId, ⟨id⟩, Notification.new⟩)

/-- `NotificationBuilder::send` (lines 465-472): materializes the command and
returns the id drawn earlier. -/
def NotificationBuilder.send (b : NotificationBuilder) : InputEvent × NotificationId :=
  (.notification b.areaId b.id b.notification, b.id)

/-- The ids returned by successive `Sender::notification` calls (one call per
listed area, all through the one shared counter), in call order. -/
def senderIdsFrom (s : SenderState) : List AreaId → List Nat
  | [] => []
  | a :: rest =>
    let (s2, b) := s.notification a
    b.id.id :: senderIdsFrom s2 rest

/-! ## Async event loop facade (`event_loop.rs`) -/

/-- `EventLoop` (lines 14-21): the receiver end of the command channel is kept
outside the state (inputs are fed in explicitly), leaving the icon table, the
single visible-notification slot and the FIFO pending queue. -/
structure EventLoop where
  windowLoop : WindowLoopFacade
  icons : List IconHandle
  visible : Option (AreaId × NotificationId)
  pending : List (AreaId × NotificationId × Notification)
  deriving DecidableEq, Repr

/-- `EventLoop::take_notification` (lines 38-50): pops the visible slot
(failing with `MissingNotification` when it is empty and leaving the state
untouched), then, if a pending notification exists, promotes the oldest one to
visible and forwards it to the window thread's send-notification operation.
The middle component is the trace of notifications forwarded to the window
thread by this call. -/
def EventLoop.takeNotification (el : EventLoop) :
    EventLoop × List (AreaId × Notification) × Except Error (AreaId × NotificationId) :=
  match el.visible with
  | none => (el, [], .error ⟨.missingNotification⟩)
  | some (areaId, id) =>
    let el1 := { el with visible := none }
    match el1.pending with
    | [] => (el1, [], .ok (areaId, id))
    | (a2, i2, n) :: rest =>
      let el2 := { el1 with visible := some (a2, i2), pending := rest }
      match el2.windowLoop.window.sendNotification a2 n with
      | .ok _ => (el2, [(a2, n)], .ok (areaId, id))
      | .error e => (el2, [(a2, n)], .error ⟨.sendNotification e⟩)

/-- One arrival inside `EventLoop::tick`'s select loop: either a command from
the `Sender` channel or an event from the window thread. -/
inductive TickInput where
  | command (event : InputEvent)
  | window (event : WindowEvent)
  deriving DecidableEq, Repr

/-- One iteration of the select loop in `EventLoop::tick` (lines 58-131),
processing a single arrival.  Result: the new state, the trace of
notifications forwarded to the window thread, and `none` when the loop
continues to the next arrival or `some` when `tick` returns (with the event,
or the error the `?` operator propagates).  The `debug_assert_eq!` on the
notification area is a debug-build no-op and is not modelled.  The `Shutdown`
arms model `window_loop.join()` succeeding — join's own failure modes are
analysed separately on `WindowLoopState`. -/
def EventLoop.tickStep (el : EventLoop) :
    TickInput → EventLoop × List (AreaId × Notification) × Option (Except Error Event)
  | .command (.modifyArea areaId modify) =>
    -- a stale icon index silently skips the icon change (`icons.get`)
    let icon := modify.icon.bind fun icon => el.icons.get? icon.id
    match el.windowLoop.window.modifyNotification areaId icon modify.tooltip with
    | .ok _ => (el, [], none)
    | .error e => (el, [], some (.error ⟨.modifyNotification e⟩))
  | .command (.modifyMenuItem itemId modify) =>
    match el.windowLoop.areas.get? itemId.areaId with
    | none => (el, [], none)
    | some area =>
      match area.popupMenu with
      | none => (el, [], none)
      | some pm =>
        match pm.modifyMenuItem itemId.id modify with
        | .ok pm2 =>
          let areas2 := el.windowLoop.areas.set itemId.areaId ⟨area.areaId, some pm2⟩
          ({ el with windowLoop := { el.windowLoop with areas := areas2 } }, [], none)
        | .error e => (el, [], some (.error ⟨.modifyMenuItem e⟩))
  | .command (.notification areaId notificationId n) =>
    if el.visible.isSome then
      ({ el with pending := el.pending ++ [(areaId, notificationId, n)] }, [], none)
    else
      let el2 := { el with visible := some (areaId, notificationId) }
      match el2.windowLoop.window.sendNotification areaId n with
      | .ok _ => (el2, [(areaId, n)], none)
      | .error e => (el2, [(areaId, n)], some (.error ⟨.sendNotification e⟩))
  | .command .shutdown =>
    ({ el with windowLoop := { el.windowLoop with closed := true } }, [],
      some (.ok .shutdown))
  | .window (.menuItemClicked areaId idx event) =>
    (el, [], some (.ok (.menuItemClicked ⟨areaId.id, idx⟩ event)))
  | .window (.clipboard ev) => (el, [], some (.ok (.clipboard ev)))
  | .window (.iconClicked areaId ev) => (el, [], some (.ok (.iconClicked areaId ev)))
  | .window (.notificationClicked _actual ev) =>
    match el.takeNotification with
    | (el2, sent, .ok (areaId, id)) =>
      (el2, sent, some (.ok (.notificationClicked areaId id ev)))
    | (el2, sent, .error e) => (el2, sent, some (.error e))
  | .window (.notificationDismissed _actual) =>
    match el.takeNotification with
    | (el2, sent, .ok (areaId, id)) =>
      (el2, sent, some (.ok (.notificationDismissed areaId id)))
    | (el2, sent, .error e) => (el2, sent, some (.error e))
  | .window (.copyData ty data) => (el, [], some (.ok (.copyData ty data)))
  | .window (.error err) => (el, [], some (.ok (.error err)))
  | .window .shutdown =>
    ({ el with windowLoop := { el.windowLoop with closed := true } }, [],
      some (.ok .shutdown))

/-- A whole session: every listed arrival is processed through the select-loop
body in order (repeated `tick` calls, each resuming where the previous
returned), collecting the forwarded-notification trace and every value a
`tick` call returned. -/
def EventLoop.processInputs (el : EventLoop) :
    List TickInput → EventLoop × List (AreaId × Notification) × List (Except Error Event)
  | [] => (el, [], [])
  | i :: rest =>
    let (el1, sent1, out) := el.tickStep i
    let (el2, sent2, outs) := el1.processInputs rest
    (el2, sent1 ++ sent2, out.toList ++ outs)

/-- The select loop of a single `tick` call: arrivals are consumed until one
of them makes `tick` return; `none` means the listed arrivals were exhausted
with the loop still pending. -/
def EventLoop.tickLoop (el : EventLoop) :
    List TickInput → EventLoop × List (AreaId × Notification) × Option (Except Error Event)
  | [] => (el, [], none)
  | i :: rest =>
    match el.tickStep i with
    | (el1, sent1, some out) => (el1, sent1, some out)
    | (el1, sent1, none) =>
      let (el2, sent2, out) := el1.tickLoop rest
      (el2, sent1 ++ sent2, out)

/-- `EventLoop::tick` (lines 53-133): if `is_closed()` holds at entry the call
returns the `WindowClosed` error immediately — before touching any arrival —
otherwise it runs the select loop over the given arrivals. -/
def EventLoop.tick (el : EventLoop) (inputs : List TickInput) :
    EventLoop × List (AreaId × Notification) × Option (Except Error Event) :=
  if el.windowLoop.closed then (el, [], some (.error ⟨.windowClosed⟩))
  else el.tickLoop inputs

/-- The notification commands for a list of `(area, id, payload)` triples, in
arrival order. -/
def notificationInputs (cmds : List (AreaId × NotificationId × Notification)) :
    List TickInput :=
  cmds.map fun c => TickInput.command (InputEvent.notification c.1 c.2.1 c.2.2)

/-- `m` notification-dismissed events from the window thread. -/
def dismissInputs (areaId : AreaId) (m : Nat) : List TickInput :=
  List.replicate m (TickInput.window (WindowEvent.notificationDismissed areaId))

/-- The send-notification call a command triple produces. -/
def sentOf (c : AreaId × NotificationId × Notification) : AreaId × Notification :=
  (c.1, c.2.2)

/-- The visible-slot entry a command triple produces. -/
def visibleOf (c : AreaId × NotificationId × Notification) : AreaId × NotificationId :=
  (c.1, c.2.1)

/-- The user reaction a window-thread notification signal reports: a balloon
click (`NIN_BALLOONUSERCLICK`) or a timeout/dismissal (`NIN_BALLOONTIMEOUT`). -/
inductive ReactionKind where
  | clicked (event : MouseEvent)
  | dismissed
  deriving DecidableEq, Repr

/-- The window-thread arrival for a reaction on the area's balloon. -/
def reactionInput (areaId : AreaId) : ReactionKind → TickInput
  | .clicked ev => .window (.notificationClicked areaId ev)
  | .dismissed => .window (.notificationDismissed areaId)

/-- A sequence of balloon reactions delivered by the window thread. -/
def reactionInputs (areaId : AreaId) (ks : List ReactionKind) : List TickInput :=
  ks.map (reactionInput areaId)

/-- The `Event` the facade returns for a reaction on the visible notification
identified by `p`. -/
def reactionEventPair (p : AreaId × NotificationId) : ReactionKind → Event
  | .clicked ev => .notificationClicked p.1 p.2 ev
  | .dismissed => .notificationDismissed p.1 p.2

/-- A freshly running window loop whose thread will return success. -/
def c2Start : WindowLoopState := ⟨some (.finished (.ok ())), true⟩

/-- An area whose popup menu holds exactly one item. -/
def c3Area : AreaHandle := ⟨⟨0⟩, some ⟨[⟨false, false⟩]⟩⟩

/-- A running loop with that single area. -/
def c3State : EventLoop := ⟨⟨⟨1⟩, [c3Area], false⟩, [], none, []⟩

/-- Three notification commands for area 0, with ids 0, 1, 2. -/
def c1Cmds : List (AreaId × NotificationId × Notification) :=
  [(⟨0⟩, ⟨0⟩, Notification.new), (⟨0⟩, ⟨1⟩, Notification.new),
    (⟨0⟩, ⟨2⟩, Notification.new)]

/-- A dismissal followed by a click. -/
def c1Ks : List ReactionKind := [.dismissed, .clicked ⟨7⟩]

/-! ## Theorems -/

/-- Little-endian recomposition inverts `to_ne_bytes` up to the word size. -/
theorem fromNeBytes_toNeBytes (k n : Nat) : fromNeBytes (toNeBytes k n) = n % 256 ^ k := by
  induction k generalizing n with
  | zero => simp [toNeBytes, fromNeBytes, Nat.mod_one]
  | succ k ih =>
    simp only [toNeBytes, fromNeBytes, ih]
    rw [pow_succ, Nat.mul_comm (256 ^ k) 256, Nat.mod_mul]

/-- C6: for every byte payload and every type tag below the `usize` width, the
receiver splits the sender's single allocation back apart exactly: the window
procedure appends the native-endian tag bytes after the payload, the message
pump takes the first `wParam` bytes as the payload and reads the tag from the
bytes that follow, and the delivered event is precisely
`CopyData(tag, payload)`. -/
theorem copy_data_roundtrip (ty : Nat) (payload : List Nat) (h : ty < 2 ^ 64) :
    copyDataDecode (copyDataEncode ty payload).1 (copyDataEncode ty payload).2 =
      (ty, payload) ∧
    copyDataEvent (copyDataEncode ty payload).1 (copyDataEncode ty payload).2 =
      WindowEvent.copyData ty payload := by
  have hmod : ty % 256 ^ 8 = ty := by
    apply Nat.mod_eq_of_lt
    calc ty < 2 ^ 64 := h
    _ ≤ 256 ^ 8 := by norm_num
  have hdec : copyDataDecode (copyDataEncode ty payload).1 (copyDataEncode ty payload).2 =
      (ty, payload) := by
    simp only [copyDataEncode, copyDataDecode]
    rw [List.drop_left, List.take_left, fromNeBytes_toNeBytes, hmod]
  exact ⟨hdec, by simp only [copyDataEvent, hdec]⟩

/-- Witness for C6: `copy_data(42, b"foobar")` round-trips to
`CopyData(42, b"foobar")`. -/
theorem copy_data_roundtrip_witness :
    42 < 2 ^ 64 ∧
    (copyDataDecode (copyDataEncode 42 [102, 111, 111, 98, 97, 114]).1
        (copyDataEncode 42 [102, 111, 111, 98, 97, 114]).2 =
      (42, [102, 111, 111, 98, 97, 114]) ∧
    copyDataEvent (copyDataEncode 42 [102, 111, 111, 98, 97, 114]).1
        (copyDataEncode 42 [102, 111, 111, 98, 97, 114]).2 =
      WindowEvent.copyData 42 [102, 111, 111, 98, 97, 114]) :=
  ⟨by norm_num, copy_data_roundtrip 42 [102, 111, 111, 98, 97, 114] (by norm_num)⟩

/-- C5: once the loop is closed, every further `tick` is immediate: with
`is_closed()` true at entry, `EventLoop::tick` returns the `WindowClosed`
error before consuming any arrival and leaves the state untouched; a window
loop whose thread handle has been taken reports `is_closed`; and
`WindowLoop::tick` on a closed internal channel synthesizes `Shutdown`
instead of blocking. -/
theorem closed_loop_fail_fast (el : EventLoop) (inputs : List TickInput)
    (s : WindowLoopState) (h : el.windowLoop.closed = true) (hs : s.thread = none) :
    el.tick inputs = (el, [], some (.error ⟨.windowClosed⟩)) ∧
    s.isClosed = true ∧
    windowLoopTick none = WindowEvent.shutdown := by
  refine ⟨by simp [EventLoop.tick, h], ?_, rfl⟩
  simp [WindowLoopState.isClosed, hs]

/-- Witness for C5 at a concrete closed loop. -/
theorem closed_loop_fail_fast_witness :
    (EventLoop.tick ⟨⟨⟨1⟩, [], true⟩, [], none, []⟩ [.command .shutdown] =
        (⟨⟨⟨1⟩, [], true⟩, [], none, []⟩, [], some (.error ⟨.windowClosed⟩)) ∧
      WindowLoopState.isClosed ⟨none, false⟩ = true ∧
      windowLoopTick none = WindowEvent.shutdown) :=
  closed_loop_fail_fast ⟨⟨⟨1⟩, [], true⟩, [], none, []⟩ [.command .shutdown]
    ⟨none, false⟩ rfl rfl

/-- C4: a class name longer than the fixed upper bound of 256 makes
`WindowLoop::new` fail immediately with `ClassNameTooLong`, and no window
thread is spawned (the `Bool` component stays `false`). -/
theorem class_name_too_long_fails_fast (className : List Nat) (areas : List AreaHandle)
    (h : 256 < className.length) :
    windowLoopNew className areas =
      (false, .error (.classNameTooLong className.length)) := by
  simp [windowLoopNew, h]

/-- Witness for C4: a 257-unit class name is rejected without a thread. -/
theorem class_name_too_long_fails_fast_witness :
    256 < (List.replicate 257 65).length ∧
    windowLoopNew (List.replicate 257 65) [] =
      (false, .error (.classNameTooLong (List.replicate 257 65).length)) :=
  ⟨by rw [List.length_replicate]; omega,
    class_name_too_long_fails_fast (List.replicate 257 65) []
      (by rw [List.length_replicate]; omega)⟩

/-- The ids drawn from the shared counter starting at `s` are consecutive as
long as the counter does not wrap. -/
theorem senderIdsFrom_eq (areas : List AreaId) (s : Nat)
    (h : s + areas.length ≤ u32Mod) :
    senderIdsFrom ⟨s⟩ areas = List.range' s areas.length := by
  induction areas generalizing s with
  | nil => simp [senderIdsFrom]
  | cons a rest ih =>
    rw [List.length_cons, List.range'_succ s rest.length 1]
    show s :: senderIdsFrom ⟨(s + 1) % u32Mod⟩ rest = s :: List.range' (s + 1) rest.length
    cases rest with
    | nil => simp [senderIdsFrom]
    | cons b rs =>
      have hlt : s + 1 < u32Mod := by
        simp only [List.length_cons] at h; omega
      rw [Nat.mod_eq_of_lt hlt, ih (s + 1) (by simp only [List.length_cons] at h ⊢; omega)]

/-- C9: notification ids are drawn from the shared atomic counter at request
time: for any call sequence shorter than the counter's width (one call per
listed area, all clones sharing the single counter), the returned ids are
exactly `0, 1, 2, ...` in call order — pairwise increasing and all distinct. -/
theorem sender_ids_sequential (areas : List AreaId) (h : areas.length ≤ u32Mod) :
    senderIdsFrom SenderState.new areas = List.range areas.length ∧
    (senderIdsFrom SenderState.new areas).Pairwise (· < ·) ∧
    (senderIdsFrom SenderState.new areas).Nodup := by
  have h0 : senderIdsFrom SenderState.new areas = List.range areas.length := by
    rw [SenderState.new, senderIdsFrom_eq areas 0 (by omega), List.range_eq_range']
  exact ⟨h0, h0 ▸ List.pairwise_lt_range areas.length, h0 ▸ List.nodup_range areas.length⟩

/-- Witness for C9: three requests, possibly from different clones and areas,
get ids 0, 1, 2. -/
theorem sender_ids_sequential_witness :
    ([AreaId.mk 0, AreaId.mk 5, AreaId.mk 2].length ≤ u32Mod) ∧
    (senderIdsFrom SenderState.new [AreaId.mk 0, AreaId.mk 5, AreaId.mk 2] =
        List.range 3 ∧
      (senderIdsFrom SenderState.new [AreaId.mk 0, AreaId.mk 5, AreaId.mk 2]).Pairwise
        (· < ·) ∧
      (senderIdsFrom SenderState.new [AreaId.mk 0, AreaId.mk 5, AreaId.mk 2]).Nodup) :=
  ⟨by norm_num [u32Mod],
    sender_ids_sequential [AreaId.mk 0, AreaId.mk 5, AreaId.mk 2] (by norm_num [u32Mod])⟩

/-- C10: a notification click or dismissal arriving while the visible slot is
`None` makes `EventLoop::tick` return the `MissingNotification` error instead
of delivering an event, and the whole loop state — in particular the pending
queue — is unchanged. -/
theorem missing_notification_error (el : EventLoop) (a : AreaId) (ev : MouseEvent)
    (hv : el.visible = none) (hc : el.windowLoop.closed = false) :
    el.tick [.window (.notificationClicked a ev)] =
      (el, [], some (.error ⟨.missingNotification⟩)) ∧
    el.tick [.window (.notificationDismissed a)] =
      (el, [], some (.error ⟨.missingNotification⟩)) := by
  have ht : el.takeNotification = (el, [], .error ⟨.missingNotification⟩) := by
    unfold EventLoop.takeNotification
    rw [hv]
  constructor <;>
    simp [EventLoop.tick, hc, EventLoop.tickLoop, EventLoop.tickStep, ht]

/-- Witness for C10 at a concrete state with an empty visible slot and a
nonempty pending queue. -/
theorem missing_notification_error_witness :
    (EventLoop.tick ⟨⟨⟨1⟩, [], false⟩, [], none, [(⟨0⟩, ⟨7⟩, Notification.new)]⟩
        [.window (.notificationClicked ⟨0⟩ ⟨2⟩)] =
      (⟨⟨⟨1⟩, [], false⟩, [], none, [(⟨0⟩, ⟨7⟩, Notification.new)]⟩, [],
        some (.error ⟨.missingNotification⟩)) ∧
    EventLoop.tick ⟨⟨⟨1⟩, [], false⟩, [], none, [(⟨0⟩, ⟨7⟩, Notification.new)]⟩
        [.window (.notificationDismissed ⟨0⟩)] =
      (⟨⟨⟨1⟩, [], false⟩, [], none, [(⟨0⟩, ⟨7⟩, Notification.new)]⟩, [],
        some (.error ⟨.missingNotification⟩))) :=
  missing_notification_error ⟨⟨⟨1⟩, [], false⟩, [], none, [(⟨0⟩, ⟨7⟩, Notification.new)]⟩
    ⟨0⟩ ⟨2⟩ rfl rfl

/-- C2 counterexample: `join` posts the destroy message before checking the
thread handle, so calling it again after a completed join — when the native
window is gone along with its exited thread — returns the `PostMessageDestroy`
error rather than success: the first join on a healthy loop succeeds and takes
the handle, and the second join on the resulting state errors. -/
theorem join_second_call_not_success :
    (c2Start.join).2 = .ok () ∧
    (c2Start.join).1.thread = none ∧
    ((c2Start.join).1.join).2 = .error ⟨.postMessageDestroy⟩ ∧
    ((c2Start.join).1.join).2 ≠ .ok () :=
  ⟨rfl, rfl, rfl, fun h => by simp [c2Start, WindowLoopState.join] at h⟩

/-- C2 amended: after the thread handle has been taken, a further `join` never
blocks and never joins again — the loop state is returned unchanged — but it
is not unconditionally a success: it re-posts the destroy message and yields
`Ok` only if that post still succeeds, and the `PostMessageDestroy` error once
the native window is gone (as it is after a completed join). -/
theorem join_after_joined (s : WindowLoopState) (h : s.thread = none) :
    (s.join).1 = s ∧
    (s.join).2 =
      (if s.windowAlive then .ok () else .error ⟨.postMessageDestroy⟩) := by
  rcases s with ⟨t, wa⟩
  subst h
  cases wa <;> simp [WindowLoopState.join]

/-- Witness for the amended C2 at the state a completed join leaves behind. -/
theorem join_after_joined_witness :
    ((WindowLoopState.mk none false).join).1 = ⟨none, false⟩ ∧
    ((WindowLoopState.mk none false).join).2 =
      (if (WindowLoopState.mk none false).windowAlive then .ok ()
        else .error ⟨.postMessageDestroy⟩) :=
  join_after_joined ⟨none, false⟩ rfl

/-- C3 counterexample: a `ModifyMenuItem` for item index 5 of an existing area
whose popup menu has a single item is not silently dropped — the native
by-position modify fails and `EventLoop::tick` returns the `ModifyMenuItem`
error. -/
theorem modify_menu_item_oob_not_dropped :
    c3State.tick [.command (.modifyMenuItem ⟨0, 5⟩ ⟨some true, none⟩)] =
      (c3State, [], some (.error ⟨.modifyMenuItem ⟨errorMenuItemNotFound⟩⟩)) := rfl

/-- C3 amended: a `ModifyMenuItem` command is silently dropped — no error, no
event, state unchanged — exactly when its area id does not resolve to a
configured area or the resolved area has no popup menu; when the area resolves
and has a popup menu, an item index at or beyond the menu length makes the
native modify fail and `tick` returns the propagated `ModifyMenuItem` error. -/
theorem modify_menu_item_dispatch (el : EventLoop) (itemId : ItemId)
    (modify : ModifyMenuItem) (hc : el.windowLoop.closed = false) :
    ((el.windowLoop.areas[itemId.areaId]?).bind AreaHandle.popupMenu = none →
      el.tick [.command (.modifyMenuItem itemId modify)] = (el, [], none)) ∧
    (∀ pm, (el.windowLoop.areas[itemId.areaId]?).bind AreaHandle.popupMenu = some pm →
      pm.items.length ≤ itemId.id →
      el.tick [.command (.modifyMenuItem itemId modify)] =
        (el, [], some (.error ⟨.modifyMenuItem ⟨errorMenuItemNotFound⟩⟩))) := by
  constructor
  · intro hnone
    match harea : el.windowLoop.areas[itemId.areaId]? with
    | none =>
      simp [EventLoop.tick, hc, EventLoop.tickLoop, EventLoop.tickStep, harea]
    | some area =>
      rw [harea, Option.some_bind] at hnone
      simp [EventLoop.tick, hc, EventLoop.tickLoop, EventLoop.tickStep, harea, hnone]
  · intro pm hsome hlen
    match harea : el.windowLoop.areas[itemId.areaId]? with
    | none => rw [harea] at hsome; exact absurd hsome (by simp)
    | some area =>
      rw [harea, Option.some_bind] at hsome
      have hmod : pm.modifyMenuItem itemId.id modify =
          .error ⟨errorMenuItemNotFound⟩ := by
        unfold PopupMenuHandle.modifyMenuItem
        rw [dif_neg (by omega)]
      simp [EventLoop.tick, hc, EventLoop.tickLoop, EventLoop.tickStep, harea, hsome, hmod]

/-- Witness for the amended C3: in a loop with a menu-less area 0 and a
one-item popup menu on area 1, a command for a nonexistent area 5 and a
command for item 2 of area 1's menu behave as stated. -/
theorem modify_menu_item_dispatch_witness :
    (EventLoop.tick ⟨⟨⟨2⟩, [⟨⟨0⟩, none⟩, ⟨⟨1⟩, some ⟨[⟨false, false⟩]⟩⟩], false⟩, [], none, []⟩
        [.command (.modifyMenuItem ⟨5, 0⟩ ⟨some true, none⟩)] =
      (⟨⟨⟨2⟩, [⟨⟨0⟩, none⟩, ⟨⟨1⟩, some ⟨[⟨false, false⟩]⟩⟩], false⟩, [], none, []⟩, [], none)) ∧
    (EventLoop.tick ⟨⟨⟨2⟩, [⟨⟨0⟩, none⟩, ⟨⟨1⟩, some ⟨[⟨false, false⟩]⟩⟩], false⟩, [], none, []⟩
        [.command (.modifyMenuItem ⟨1, 2⟩ ⟨some true, none⟩)] =
      (⟨⟨⟨2⟩, [⟨⟨0⟩, none⟩, ⟨⟨1⟩, some ⟨[⟨false, false⟩]⟩⟩], false⟩, [], none, []⟩, [],
        some (.error ⟨.modifyMenuItem ⟨errorMenuItemNotFound⟩⟩))) :=
  ⟨(modify_menu_item_dispatch
      ⟨⟨⟨2⟩, [⟨⟨0⟩, none⟩, ⟨⟨1⟩, some ⟨[⟨false, false⟩]⟩⟩], false⟩, [], none, []⟩
      ⟨5, 0⟩ ⟨some true, none⟩ rfl).1 rfl,
    (modify_menu_item_dispatch
      ⟨⟨⟨2⟩, [⟨⟨0⟩, none⟩, ⟨⟨1⟩, some ⟨[⟨false, false⟩]⟩⟩], false⟩, [], none, []⟩
      ⟨1, 2⟩ ⟨some true, none⟩ rfl).2 ⟨[⟨false, false⟩]⟩ rfl (by simp)⟩

/-- C8: text clipboard payloads are handled as claimed: a payload whose final
code unit is a null terminator loses exactly that one unit (one without a
trailing null is left whole); the remainder is decoded as UTF-8 for ANSI text
or UTF-16 for Unicode text; a failed decode produces no event and raises no
error (`Ok(None)`), and a successful decode produces exactly one `Text`
clipboard event carrying the decoded string. -/
theorem clipboard_text_decode (env : PollEnv) (d : List Nat)
    (hopen : env.openOk = true) (hdata : env.getDataOk = true)
    (hlock : env.lockOk = true) :
    stripTrailingNull (d ++ [0]) = d ∧
    (d.getLast? ≠ some 0 → stripTrailingNull d = d) ∧
    (utf8Decode (stripTrailingNull env.data) = none →
      pollClipboard (some .text) env = (none, .ok none)) ∧
    (∀ s, utf8Decode (stripTrailingNull env.data) = some s →
      pollClipboard (some .text) env = (none, .ok (some (.text s)))) ∧
    (utf16Decode (stripTrailingNull env.data) = none →
      pollClipboard (some .unicodetext) env = (none, .ok none)) ∧
    (∀ s, utf16Decode (stripTrailingNull env.data) = some s →
      pollClipboard (some .unicodetext) env = (none, .ok (some (.text s)))) := by
  refine ⟨?_, ?_, ?_, ?_, ?_, ?_⟩
  · rw [stripTrailingNull, if_pos (List.getLast?_concat d), List.dropLast_concat]
  · intro hlast
    rw [stripTrailingNull, if_neg hlast]
  · intro hdec
    simp [pollClipboard, hopen, hdata, hlock, hdec]
  · intro s hdec
    simp [pollClipboard, hopen, hdata, hlock, hdec]
  · intro hdec
    simp [pollClipboard, hopen, hdata, hlock, hdec]
  · intro s hdec
    simp [pollClipboard, hopen, hdata, hlock, hdec]

/-- Witness for C8: applies the theorem to an environment whose locked payload
is `b"hi\0"` (stripping the null and decoding succeed) and to one whose
payload is the invalid byte `0xFF` followed by a null (decoding fails). -/
theorem clipboard_text_decode_witness :
    (stripTrailingNull ([104, 105] ++ [0]) = [104, 105] ∧
      pollClipboard (some .text) ⟨true, true, true, [104, 105, 0], 0, []⟩ =
        (none, .ok (some (.text [104, 105])))) ∧
    (pollClipboard (some .text) ⟨true, true, true, [255, 0], 0, []⟩ =
        (none, .ok none)) :=
  ⟨⟨(clipboard_text_decode ⟨true, true, true, [104, 105, 0], 0, []⟩ [104, 105]
        rfl rfl rfl).1,
      (clipboard_text_decode ⟨true, true, true, [104, 105, 0], 0, []⟩ [104, 105]
        rfl rfl rfl).2.2.2.1 [104, 105] (by decide)⟩,
    (clipboard_text_decode ⟨true, true, true, [255, 0], 0, []⟩ []
        rfl rfl rfl).2.2.1 (by decide)⟩

/-- While the clipboard stays busy, retry firings within the attempt bound
only bump the counter: no event is emitted and the retry timer stays armed. -/
theorem runRetryTimers_busy (env : PollEnv) (hbusy : env.openOk = false) :
    ∀ (k a : Nat) (sup : Option ClipboardFormat) (r d : Bool), 1 ≤ a →
      a + k ≤ RETRY_MAX_ATTEMPTS →
      runRetryTimers env k ⟨a, sup, r, d⟩ = (⟨a + k, sup, r, d⟩, []) := by
  intro k
  induction k with
  | zero => intro a sup r d h1 h2; simp [runRetryTimers]
  | succ k ih =>
    intro a sup r d h1 h2
    have hpoll : pollClipboard sup env = (sup, .error (.openClipboard ⟨env.errorCode⟩)) := by
      simp [pollClipboard, hbusy]
    have hstep : ClipState.handleTimer ⟨a, sup, r, d⟩ env = (⟨a + 1, sup, r, d⟩, []) := by
      rw [ClipState.handleTimer, hpoll]
      have hlt : ¬ RETRY_MAX_ATTEMPTS ≤ a := by
        rw [RETRY_MAX_ATTEMPTS] at h2 ⊢; omega
      simp only [if_neg hlt]
      have hne : ¬ a = 0 := by omega
      simp [hne]
    rw [runRetryTimers, hstep]
    dsimp only
    rw [ih (a + 1) sup r d (by omega) (by omega)]
    have hx : a + 1 + k = a + (k + 1) := by omega
    simp [hx]

/-- Splitting a run of retry firings. -/
theorem runRetryTimers_add (env : PollEnv) (k1 k2 : Nat) (s : ClipState) :
    runRetryTimers env (k1 + k2) s =
      ((runRetryTimers env k2 (runRetryTimers env k1 s).1).1,
        (runRetryTimers env k1 s).2 ++ (runRetryTimers env k2 (runRetryTimers env k1 s).1).2) := by
  induction k1 generalizing s with
  | zero => simp [runRetryTimers]
  | succ k1 ih =>
    have : k1 + 1 + k2 = (k1 + k2) + 1 := by omega
    rw [this]
    rw [runRetryTimers, runRetryTimers]
    rcases hstep : s.handleTimer env with ⟨s1, evs1⟩
    simp only [ih s1, List.append_assoc]

/-- C7: with the clipboard persistently busy, starting from the state the
failed debounce poll leaves behind (one attempt recorded, retry timer armed),
the poller retries on the retry timer with the attempt count bounded by
`RETRY_MAX_ATTEMPTS = 10`: the first nine retry firings emit nothing and keep
the timer armed, the tenth exceeds the bound and emits exactly one non-fatal
`Error` event while killing the retry timer and resetting the counter — and
every retry-timer message is consumed by `dispatch`, so the message loop keeps
running. -/
theorem clipboard_retry_bounded (env : PollEnv) (s : ClipState) (k : Nat)
    (hbusy : env.openOk = false) (ha : s.attempts = 1) (hr : s.retryArmed = true)
    (hk : k ≤ 9) :
    (runRetryTimers env k s).2 = [] ∧
    (runRetryTimers env k s).1.retryArmed = true ∧
    (runRetryTimers env k s).1.attempts = 1 + k ∧
    (runRetryTimers env 10 s).2 =
      [.error ⟨.clipboardPoll (.openClipboard ⟨env.errorCode⟩)⟩] ∧
    (runRetryTimers env 10 s).1.retryArmed = false ∧
    (runRetryTimers env 10 s).1.attempts = 0 ∧
    (s.dispatch env (.timer CLIPBOARD_RETRY_TIMER)).2.2 = true := by
  obtain ⟨a, sup, r, d⟩ := s
  simp only at ha hr
  subst ha
  subst hr
  have hshort := runRetryTimers_busy env hbusy k 1 sup true d (by omega)
    (by rw [RETRY_MAX_ATTEMPTS]; omega)
  have hnine := runRetryTimers_busy env hbusy 9 1 sup true d (by omega) (by decide)
  have hpoll : pollClipboard sup env = (sup, .error (.openClipboard ⟨env.errorCode⟩)) := by
    simp [pollClipboard, hbusy]
  have hlast : ClipState.handleTimer ⟨10, sup, true, d⟩ env =
      (⟨0, sup, false, d⟩, [.error ⟨.clipboardPoll (.openClipboard ⟨env.errorCode⟩)⟩]) := by
    rw [ClipState.handleTimer, hpoll]
    simp [RETRY_MAX_ATTEMPTS]
  have hten : runRetryTimers env 10 ⟨1, sup, true, d⟩ =
      (⟨0, sup, false, d⟩, [.error ⟨.clipboardPoll (.openClipboard ⟨env.errorCode⟩)⟩]) := by
    have h910 : (9 : Nat) + 1 = 10 := rfl
    rw [← h910, runRetryTimers_add env 9 1, hnine]
    simp [runRetryTimers, hlast]
  refine ⟨?_, ?_, ?_, ?_, ?_, ?_, ?_⟩
  · rw [hshort]
  · rw [hshort]
  · rw [hshort]
  · rw [hten]
  · rw [hten]
  · rw [hten]
  · simp [ClipState.dispatch]

/-- Witness for C7: a busy environment, the post-debounce state, and the
ninth retry firing. -/
theorem clipboard_retry_bounded_witness :
    ((runRetryTimers ⟨false, true, true, [], 5, []⟩ 9 ⟨1, some .text, true, false⟩).2 = [] ∧
      (runRetryTimers ⟨false, true, true, [], 5, []⟩ 9 ⟨1, some .text, true, false⟩).1.retryArmed = true ∧
      (runRetryTimers ⟨false, true, true, [], 5, []⟩ 9 ⟨1, some .text, true, false⟩).1.attempts = 1 + 9 ∧
      (runRetryTimers ⟨false, true, true, [], 5, []⟩ 10 ⟨1, some .text, true, false⟩).2 =
        [.error ⟨.clipboardPoll (.openClipboard ⟨5⟩)⟩] ∧
      (runRetryTimers ⟨false, true, true, [], 5, []⟩ 10 ⟨1, some .text, true, false⟩).1.retryArmed = false ∧
      (runRetryTimers ⟨false, true, true, [], 5, []⟩ 10 ⟨1, some .text, true, false⟩).1.attempts = 0 ∧
      (ClipState.dispatch ⟨1, some .text, true, false⟩ ⟨false, true, true, [], 5, []⟩
        (.timer CLIPBOARD_RETRY_TIMER)).2.2 = true) :=
  clipboard_retry_bounded ⟨false, true, true, [], 5, []⟩ ⟨1, some .text, true, false⟩ 9
    rfl rfl rfl (by omega)

/-- Both balloon reactions drive `tick` through `take_notification` the same
way; only the returned event differs. -/
theorem tickStep_reaction (el : EventLoop) (a : AreaId) (k : ReactionKind) :
    el.tickStep (reactionInput a k) =
      (match el.takeNotification with
        | (el2, sent, .ok p) => (el2, sent, some (.ok (reactionEventPair p k)))
        | (el2, sent, .error e) => (el2, sent, some (.error e))) := by
  cases k <;>
    rcases h : el.takeNotification with ⟨el2, sent, res⟩ <;>
      rcases res with p | e <;>
        simp [reactionInput, EventLoop.tickStep, h, reactionEventPair]

/-- While a notification is visible, every further notification command only
appends to the pending queue, in arrival order, forwarding nothing and
returning nothing. -/
theorem processInputs_notification_queue (wl : WindowLoopFacade) (ic : List IconHandle)
    (v : AreaId × NotificationId) :
    ∀ (cmds : List (AreaId × NotificationId × Notification))
      (p : List (AreaId × NotificationId × Notification)),
    EventLoop.processInputs ⟨wl, ic, some v, p⟩ (notificationInputs cmds) =
      (⟨wl, ic, some v, p ++ cmds⟩, [], []) := by
  intro cmds
  induction cmds with
  | nil => intro p; simp [notificationInputs, EventLoop.processInputs]
  | cons c rest ih =>
    intro p
    rw [notificationInputs, List.map_cons, EventLoop.processInputs]
    have hstep : EventLoop.tickStep ⟨wl, ic, some v, p⟩
        (.command (.notification c.1 c.2.1 c.2.2)) =
        (⟨wl, ic, some v, p ++ [c]⟩, [], none) := by
      simp [EventLoop.tickStep]
    rw [hstep]
    dsimp only
    have hrest : notificationInputs rest =
        rest.map fun c => TickInput.command (InputEvent.notification c.1 c.2.1 c.2.2) := rfl
    rw [← hrest, ih (p ++ [c])]
    simp

/-- Reactions drain the queue one promotion at a time: after `ks.length`
reactions from the state where `c0` is visible and `rest` is pending, the
forwarded notifications are exactly the first `ks.length` pending entries in
order, the visible slot has advanced to the next entry of the original
sequence, and each reaction returned the event for the notification that was
visible when it arrived. -/
theorem processInputs_reactions (a : AreaId) (wl : WindowLoopFacade)
    (ic : List IconHandle) :
    ∀ (ks : List ReactionKind) (c0 : AreaId × NotificationId × Notification)
      (rest : List (AreaId × NotificationId × Notification)),
    (∀ x ∈ rest, x.1.id < wl.window.areaCount) → ks.length ≤ rest.length + 1 →
    EventLoop.processInputs ⟨wl, ic, some (visibleOf c0), rest⟩ (reactionInputs a ks) =
      (⟨wl, ic, ((c0 :: rest)[ks.length]?).map visibleOf, rest.drop ks.length⟩,
        (rest.take ks.length).map sentOf,
        List.zipWith (fun c k => Except.ok (reactionEventPair (visibleOf c) k))
          (c0 :: rest) ks) := by
  intro ks
  induction ks with
  | nil =>
    intro c0 rest hrest hlen
    simp [reactionInputs, EventLoop.processInputs]
  | cons k0 ks ih =>
    intro c0 rest hrest hlen
    simp only [reactionInputs] at ih
    rw [reactionInputs, List.map_cons, EventLoop.processInputs, tickStep_reaction]
    cases rest with
    | nil =>
      have hks : ks = [] := by
        rw [List.length_cons, List.length_nil] at hlen
        exact List.length_eq_zero.mp (by omega)
      subst hks
      have htake : EventLoop.takeNotification ⟨wl, ic, some (visibleOf c0), []⟩ =
          (⟨wl, ic, none, []⟩, [], .ok (visibleOf c0)) := by
        simp [EventLoop.takeNotification, visibleOf]
      rw [htake]
      dsimp only
      simp [reactionInputs, EventLoop.processInputs]
    | cons r1 rs =>
      have hsend : wl.window.sendNotification r1.1 r1.2.2 = .ok () := by
        simp [WindowHandle.sendNotification, hrest r1 (by simp)]
      have htake : EventLoop.takeNotification ⟨wl, ic, some (visibleOf c0), r1 :: rs⟩ =
          (⟨wl, ic, some (visibleOf r1), rs⟩, [(r1.1, r1.2.2)], .ok (visibleOf c0)) := by
        simp [EventLoop.takeNotification, visibleOf, hsend]
      rw [htake]
      dsimp only
      rw [ih r1 rs (fun x hx => hrest x (by simp [hx]))
        (by simp only [List.length_cons] at hlen; omega)]
      simp [sentOf]

/-- C1: starting from an idle loop, a burst of notification commands makes the
facade mark the first one visible and forward it to the window thread at once,
queue the rest FIFO in arrival order (forwarding nothing else and returning no
event), and then each balloon click or dismissal promotes exactly the oldest
pending notification to visible and forwards it: after `k` reactions exactly
the first `k + 1` commands have been forwarded, in order — so a notification
is never forwarded before all its predecessors have been clicked or dismissed
— the visible slot (a single `Option`, so at most one notification is visible
at any time) holds the `k`-th command, and each reaction returned the event of
the notification visible when it arrived. -/
theorem notification_fifo_order (w : WindowHandle) (areas : List AreaHandle)
    (ic : List IconHandle) (cmds : List (AreaId × NotificationId × Notification))
    (a : AreaId) (ks : List ReactionKind)
    (hareas : ∀ c ∈ cmds, c.1.id < w.areaCount) (hm : ks.length ≤ cmds.length) :
    EventLoop.processInputs ⟨⟨w, areas, false⟩, ic, none, []⟩ (notificationInputs cmds) =
      (⟨⟨w, areas, false⟩, ic, cmds.head?.map visibleOf, cmds.drop 1⟩,
        (cmds.take 1).map sentOf, []) ∧
    (cmds.take 1).map sentOf ++
        (EventLoop.processInputs ⟨⟨w, areas, false⟩, ic, cmds.head?.map visibleOf, cmds.drop 1⟩
          (reactionInputs a ks)).2.1 =
      (cmds.take (ks.length + 1)).map sentOf ∧
    (EventLoop.processInputs ⟨⟨w, areas, false⟩, ic, cmds.head?.map visibleOf, cmds.drop 1⟩
        (reactionInputs a ks)).1.visible =
      (cmds[ks.length]?).map visibleOf ∧
    (EventLoop.processInputs ⟨⟨w, areas, false⟩, ic, cmds.head?.map visibleOf, cmds.drop 1⟩
        (reactionInputs a ks)).1.pending =
      cmds.drop (ks.length + 1) ∧
    (EventLoop.processInputs ⟨⟨w, areas, false⟩, ic, cmds.head?.map visibleOf, cmds.drop 1⟩
        (reactionInputs a ks)).2.2 =
      List.zipWith (fun c k => Except.ok (reactionEventPair (visibleOf c) k)) cmds ks := by
  cases cmds with
  | nil =>
    have hks : ks = [] := by
      rw [List.length_nil] at hm
      exact List.length_eq_zero.mp (by omega)
    subst hks
    refine ⟨?_, ?_, ?_, ?_, ?_⟩ <;>
      simp [notificationInputs, reactionInputs, EventLoop.processInputs]
  | cons c cs =>
    have hreact := processInputs_reactions a ⟨w, areas, false⟩ ic ks c cs
      (fun x hx => hareas x (by simp [hx]))
      (by rw [List.length_cons] at hm; omega)
    have hel1 : (⟨⟨w, areas, false⟩, ic, (c :: cs).head?.map visibleOf, (c :: cs).drop 1⟩ :
        EventLoop) = ⟨⟨w, areas, false⟩, ic, some (visibleOf c), cs⟩ := by
      simp [visibleOf]
    have hphase1 : EventLoop.processInputs ⟨⟨w, areas, false⟩, ic, none, []⟩
        (notificationInputs (c :: cs)) =
        (⟨⟨w, areas, false⟩, ic, some (visibleOf c), cs⟩, [(c.1, c.2.2)], []) := by
      rw [notificationInputs, List.map_cons, EventLoop.processInputs]
      have hsend : w.sendNotification c.1 c.2.2 = .ok () := by
        simp [WindowHandle.sendNotification, hareas c (by simp)]
      have hstep : EventLoop.tickStep ⟨⟨w, areas, false⟩, ic, none, []⟩
          (.command (.notification c.1 c.2.1 c.2.2)) =
          (⟨⟨w, areas, false⟩, ic, some (c.1, c.2.1), []⟩, [(c.1, c.2.2)], none) := by
        simp [EventLoop.tickStep, hsend]
      rw [hstep]
      dsimp only
      have hq := processInputs_notification_queue ⟨w, areas, false⟩ ic (c.1, c.2.1) cs []
      simp only [notificationInputs] at hq
      rw [hq]
      simp [visibleOf]
    rw [hel1, hphase1, hreact]
    refine ⟨rfl, ?_, ?_, ?_, ?_⟩
    · simp [sentOf]
    · simp [visibleOf]
    · simp
    · simp

/-- Witness for C1: three notifications to one area followed by a dismissal
and a click; the forwards happen one reaction at a time, in order. -/
theorem notification_fifo_order_witness :
    (∀ c ∈ c1Cmds, c.1.id < (⟨1⟩ : WindowHandle).areaCount) ∧
    c1Ks.length ≤ c1Cmds.length ∧
    (EventLoop.processInputs ⟨⟨⟨1⟩, [], false⟩, [], none, []⟩ (notificationInputs c1Cmds) =
      (⟨⟨⟨1⟩, [], false⟩, [], c1Cmds.head?.map visibleOf, c1Cmds.drop 1⟩,
        (c1Cmds.take 1).map sentOf, []) ∧
    (c1Cmds.take 1).map sentOf ++
        (EventLoop.processInputs ⟨⟨⟨1⟩, [], false⟩, [], c1Cmds.head?.map visibleOf, c1Cmds.drop 1⟩
          (reactionInputs ⟨0⟩ c1Ks)).2.1 =
      (c1Cmds.take (c1Ks.length + 1)).map sentOf ∧
    (EventLoop.processInputs ⟨⟨⟨1⟩, [], false⟩, [], c1Cmds.head?.map visibleOf, c1Cmds.drop 1⟩
        (reactionInputs ⟨0⟩ c1Ks)).1.visible =
      (c1Cmds[c1Ks.length]?).map visibleOf ∧
    (EventLoop.processInputs ⟨⟨⟨1⟩, [], false⟩, [], c1Cmds.head?.map visibleOf, c1Cmds.drop 1⟩
        (reactionInputs ⟨0⟩ c1Ks)).1.pending =
      c1Cmds.drop (c1Ks.length + 1) ∧
    (EventLoop.processInputs ⟨⟨⟨1⟩, [], false⟩, [], c1Cmds.head?.map visibleOf, c1Cmds.drop 1⟩
        (reactionInputs ⟨0⟩ c1Ks)).2.2 =
      List.zipWith (fun c k => Except.ok (reactionEventPair (visibleOf c) k)) c1Cmds c1Ks) :=
  ⟨by decide, by decide,
    notification_fifo_order ⟨1⟩ [] [] c1Cmds ⟨0⟩ c1Ks (by decide) (by decide)⟩

end Winctx
